import Mathlib

/-!
Shallow embedding of the opensearch-go security-plugin role / role-mapping
client (package `opensearchapi`): the request-builder and transport-dispatch
layer of `api.role.create.go`, `api.role.put_mapping.go` and the role-delete
file, together with the option mutators (functional options).

Modelling conventions:
* `time.Duration` is `Int` (nanoseconds); its Go zero value is `0`.
* `io.Reader` bodies are opaque: `Option String` (`none` is Go's `nil`).
* `context.Context` handles are opaque: `Option Nat` (`none` is Go's `nil`).
* `http.Header` (`map[string][]string`) is an association list kept in
  insertion order; Go map iteration order is unspecified, so statements about
  multi-key iteration use single-key inputs only.
* `url.Values.Encode` sorts parameters by key; percent-escaping is out of
  scope per the spec and the parameter values used here are escape-free.
-/

/-- Errors flowing out of the construction helper or the transport,
modelled as their Go error strings. -/
abbrev Err := String

/-- `http.Header`: a multi-valued header map in insertion order. -/
abbrev HttpHeader := List (String × List String)

/-- A byte of a valid header field name (Go `net/textproto` token table):
alphanumerics and the fifteen extra token characters. -/
def validHeaderFieldChar (c : Char) : Bool :=
  let n := c.toNat
  (48 ≤ n && n ≤ 57) || (65 ≤ n && n ≤ 90) || (97 ≤ n && n ≤ 122) ||
  (n == 33 || n == 35 || n == 36 || n == 37 || n == 38 || n == 39 ||
   n == 42 || n == 43 || n == 45 || n == 46 || n == 94 || n == 95 ||
   n == 96 || n == 124 || n == 126)

/-- Canonical MIME casing: uppercase at the start and after each hyphen,
lowercase elsewhere (Go `textproto.CanonicalMIMEHeaderKey` loop). -/
def canonicalChars : Bool → List Char → List Char
  | _, [] => []
  | upper, c :: rest =>
    let c2 := if upper then c.toUpper else c.toLower
    c2 :: canonicalChars (c2 == '-') rest

/-- Go `textproto.CanonicalMIMEHeaderKey`: keys with an invalid byte are
returned unchanged, otherwise canonical MIME casing is applied. -/
def canonicalMIMEHeaderKey (s : String) : String :=
  if s.data.all validHeaderFieldChar then ⟨canonicalChars true s.data⟩ else s

/-- Append a value to the entry of an (already canonical) key, creating the
entry when absent (Go `textproto.MIMEHeader.Add` on the map). -/
def addEntry : HttpHeader → String → String → HttpHeader
  | [], k, v => [(k, [v])]
  | (k0, vs) :: rest, k, v =>
    if k0 == k then (k0, vs ++ [v]) :: rest else (k0, vs) :: addEntry rest k v

/-- Replace the entry of an (already canonical) key with a single value,
creating it when absent (Go `textproto.MIMEHeader.Set` on the map). -/
def setEntry : HttpHeader → String → String → HttpHeader
  | [], k, v => [(k, [v])]
  | (k0, vs) :: rest, k, v =>
    if k0 == k then (k0, [v]) :: rest else (k0, vs) :: setEntry rest k v

/-- Replace the whole value list of a key verbatim, with no key
canonicalisation: Go's direct map assignment `h[key] = values`. -/
def assignEntry : HttpHeader → String → List String → HttpHeader
  | [], k, vs => [(k, vs)]
  | (k0, vs0) :: rest, k, vs =>
    if k0 == k then (k0, vs) :: rest else (k0, vs0) :: assignEntry rest k vs

/-- Go `http.Header.Add`: canonicalise the key, then append the value. -/
def HttpHeader.add (h : HttpHeader) (key value : String) : HttpHeader :=
  addEntry h (canonicalMIMEHeaderKey key) value

/-- Go `http.Header.Set`: canonicalise the key, then replace the entry. -/
def HttpHeader.set (h : HttpHeader) (key value : String) : HttpHeader :=
  setEntry h (canonicalMIMEHeaderKey key) value

/-- Look up the value list of a key after canonicalisation. -/
def findEntry : HttpHeader → String → Option (List String)
  | [], _ => none
  | (k0, vs) :: rest, k => if k0 == k then some vs else findEntry rest k

/-- Go `http.Header.Get`: the first value stored under the canonical key,
`none` when the map has no value for it. -/
def HttpHeader.get (h : HttpHeader) (key : String) : Option String :=
  match findEntry h (canonicalMIMEHeaderKey key) with
  | some vs => vs.head?
  | none => none

/-- The header merge loop of the `Do` operations:
`for k, vv := range r.Header { for _, v := range vv { req.Header.Add(k, v) } }`. -/
def mergeHeaders (base : HttpHeader) (extra : HttpHeader) : HttpHeader :=
  extra.foldl (fun acc kv => kv.2.foldl (fun a v => a.add kv.1 v) acc) base

/-- The wire-level HTTP request handed to the transport: Go `*http.Request`
restricted to the fields this layer writes (`Method`, `URL.Path`, the query
parameters behind `URL.RawQuery`, `Header`, `Body`, and the bound context). -/
structure Request where
  Method : String
  Path : String
  Query : List (String × String)
  Header : HttpHeader
  Body : Option String
  ctx : Option Nat
deriving Repr, DecidableEq

/-- The raw transport response (Go `*http.Response` restricted to the three
fields this layer reads). -/
structure RawResponse where
  StatusCode : Int
  Header : HttpHeader
  Body : String
deriving Repr, DecidableEq

/-- The normalized response returned to the caller (`opensearchapi.Response`). -/
structure Response where
  StatusCode : Int
  Header : HttpHeader
  Body : String
deriving Repr, DecidableEq

/-- The injected transport capability: `Perform(request) → response or error`. -/
abbrev Transport := Request → Except Err RawResponse

/-- Modelled from the spec: the request-construction helper
`build(method, path, body) → request or error` (§6), absent from `src/`.
It fails on a malformed method/path combination — an invalid method token or
a control character in the URL, per Go `http.NewRequest` / `url.Parse` —
and otherwise yields the request with the given method, path and body, an
empty query and an empty header set. -/
def newRequest (method path : String) (body : Option String) : Except Err Request :=
  if method.isEmpty || !(method.data.all validHeaderFieldChar) then
    .error "net/http: invalid method"
  else if path.data.any (fun c => c.toNat < 32 || c.toNat == 127) then
    .error "net/url: invalid control character in URL"
  else
    .ok { Method := method, Path := path, Query := [], Header := [],
          Body := body, ctx := none }

/-- Modelled from the spec: the duration-formatting helper
`duration → wire-format string` (§6), absent from `src/`; the exact duration
grammar is delegated to it, rendered here as integer milliseconds. -/
def formatDuration (d : Int) : String :=
  toString (d / 1000000) ++ "ms"

/-- Go `strings.Join list ","`. -/
def joinComma : List String → String
  | [] => ""
  | [s] => s
  | s :: rest => s ++ "," ++ joinComma rest

/-- The content-type header key constant. Modelled from the spec: the fixed
JSON media type override of §4.2 step 5. -/
def headerContentType : String := "Content-Type"

/-- The fixed JSON media type value list. Modelled from the spec:
the fixed JSON media type override of §4.2 step 5. -/
def headerContentTypeJSON : List String := ["application/json"]

/-- Insert one parameter into a key-sorted parameter list. -/
def insertParam (p : String × String) : List (String × String) → List (String × String)
  | [] => [p]
  | q :: rest =>
    if compare q.1 p.1 == Ordering.lt then q :: insertParam p rest else p :: q :: rest

/-- Sort parameters by key: `url.Values.Encode` emits keys in sorted order. -/
def sortParams (l : List (String × String)) : List (String × String) :=
  l.foldr insertParam []

/-- Serialize a (sorted) parameter list as the raw query string. -/
def encodeQuery : List (String × String) → String
  | [] => ""
  | [(k, v)] => k ++ "=" ++ v
  | (k, v) :: rest => k ++ "=" ++ v ++ "&" ++ encodeQuery rest

/-- The URL as a string: path, then `?` and the encoded query only when at
least one query parameter is present. -/
def Request.urlString (req : Request) : String :=
  req.Path ++ (if req.Query.isEmpty then "" else "?" ++ encodeQuery req.Query)

/-- `RoleCreateRequest` configures the Role Create API request
(`api.role.create.go`). -/
structure RoleCreateRequest where
  Role : String
  Body : Option String := none
  MasterTimeout : Int := 0
  ClusterManagerTimeout : Int := 0
  Timeout : Int := 0
  WaitForActiveShards : String := ""
  Pretty : Bool := false
  Human : Bool := false
  ErrorTrace : Bool := false
  FilterPath : List String := []
  Header : HttpHeader := []
  ctx : Option Nat := none
deriving Repr, DecidableEq

/-- `RoleDeleteRequest` configures the Role Delete API request
(the role-delete source file). -/
structure RoleDeleteRequest where
  Role : String
  Body : Option String := none
  MasterTimeout : Int := 0
  ClusterManagerTimeout : Int := 0
  Timeout : Int := 0
  WaitForActiveShards : String := ""
  Pretty : Bool := false
  Human : Bool := false
  ErrorTrace : Bool := false
  FilterPath : List String := []
  Header : HttpHeader := []
  ctx : Option Nat := none
deriving Repr, DecidableEq

/-- `RoleMappingCreateRequest` configures the RoleMapping Create API request
(`api.role.put_mapping.go`). -/
structure RoleMappingCreateRequest where
  Role : String
  Body : Option String := none
  MasterTimeout : Int := 0
  ClusterManagerTimeout : Int := 0
  Timeout : Int := 0
  WaitForActiveShards : String := ""
  Pretty : Bool := false
  Human : Bool := false
  ErrorTrace : Bool := false
  FilterPath : List String := []
  Header : HttpHeader := []
  ctx : Option Nat := none
deriving Repr, DecidableEq

/-- `RoleMappingDeleteRequest` configures the RoleMapping Delete API request
(second half of `api.role.create.go`). -/
structure RoleMappingDeleteRequest where
  Role : String
  Body : Option String := none
  MasterTimeout : Int := 0
  ClusterManagerTimeout : Int := 0
  Timeout : Int := 0
  WaitForActiveShards : String := ""
  Pretty : Bool := false
  Human : Bool := false
  ErrorTrace : Bool := false
  FilterPath : List String := []
  Header : HttpHeader := []
  ctx : Option Nat := none
deriving Repr, DecidableEq

/-- The fixed role endpoint prefix and the identifier, written exactly once
after it: `path.WriteString("/_plugins/_security/api/roles/");
path.WriteString(r.Role)`. -/
def roleCreatePath (role : String) : String :=
  "/_plugins/_security/api/roles/" ++ role

/-- The role-delete path: same prefix and identifier concatenation. -/
def roleDeletePath (role : String) : String :=
  "/_plugins/_security/api/roles/" ++ role

/-- The role-mapping path: prefix `/_plugins/_security/api/rolesmapping/`
and the identifier, written exactly once after it. -/
def roleMappingPath (role : String) : String :=
  "/_plugins/_security/api/rolesmapping/" ++ role

/-- The query-parameter collection of `RoleCreateRequest.Do` (lines 87-119):
each recognized field is added only when non-zero, in source order. -/
def RoleCreateRequest.params (r : RoleCreateRequest) : List (String × String) :=
  (if r.MasterTimeout ≠ 0 then [("master_timeout", formatDuration r.MasterTimeout)] else []) ++
  (if r.ClusterManagerTimeout ≠ 0 then [("cluster_manager_timeout", formatDuration r.ClusterManagerTimeout)] else []) ++
  (if r.Timeout ≠ 0 then [("timeout", formatDuration r.Timeout)] else []) ++
  (if r.WaitForActiveShards ≠ "" then [("wait_for_active_shards", r.WaitForActiveShards)] else []) ++
  (if r.Pretty then [("pretty", "true")] else []) ++
  (if r.Human then [("human", "true")] else []) ++
  (if r.ErrorTrace then [("error_trace", "true")] else []) ++
  (if r.FilterPath.length > 0 then [("filter_path", joinComma r.FilterPath)] else [])

/-- The identical query-parameter collection of `RoleMappingCreateRequest.Do`. -/
def RoleMappingCreateRequest.params (r : RoleMappingCreateRequest) : List (String × String) :=
  (if r.MasterTimeout ≠ 0 then [("master_timeout", formatDuration r.MasterTimeout)] else []) ++
  (if r.ClusterManagerTimeout ≠ 0 then [("cluster_manager_timeout", formatDuration r.ClusterManagerTimeout)] else []) ++
  (if r.Timeout ≠ 0 then [("timeout", formatDuration r.Timeout)] else []) ++
  (if r.WaitForActiveShards ≠ "" then [("wait_for_active_shards", r.WaitForActiveShards)] else []) ++
  (if r.Pretty then [("pretty", "true")] else []) ++
  (if r.Human then [("human", "true")] else []) ++
  (if r.ErrorTrace then [("error_trace", "true")] else []) ++
  (if r.FilterPath.length > 0 then [("filter_path", joinComma r.FilterPath)] else [])

/-- The request-construction phase of `RoleCreateRequest.Do` (lines 81-152):
method and path, query parameters, base request, query encoding (the base
request's query is empty, so `Set` then `Encode` yields the key-sorted
parameter list), unconditional JSON content-type when a body is present,
wholesale-replace-or-add header merge, and context binding. -/
def RoleCreateRequest.buildReq (r : RoleCreateRequest) (ctx : Option Nat) : Except Err Request :=
  match newRequest "PUT" (roleCreatePath r.Role) r.Body with
  | .error e => .error e
  | .ok req0 =>
    let req1 := if r.params.length > 0 then { req0 with Query := sortParams r.params } else req0
    let req2 := if r.Body.isSome then
        { req1 with Header := assignEntry req1.Header headerContentType headerContentTypeJSON }
      else req1
    let req3 := if r.Header.length > 0 then
        (if req2.Header.length == 0 then { req2 with Header := r.Header }
         else { req2 with Header := mergeHeaders req2.Header r.Header })
      else req2
    match ctx with
    | some c => .ok { req3 with ctx := some c }
    | none => .ok req3

/-- The identical request-construction phase of `RoleMappingCreateRequest.Do`
with the role-mapping path. -/
def RoleMappingCreateRequest.buildReq (r : RoleMappingCreateRequest) (ctx : Option Nat) : Except Err Request :=
  match newRequest "PUT" (roleMappingPath r.Role) r.Body with
  | .error e => .error e
  | .ok req0 =>
    let req1 := if r.params.length > 0 then { req0 with Query := sortParams r.params } else req0
    let req2 := if r.Body.isSome then
        { req1 with Header := assignEntry req1.Header headerContentType headerContentTypeJSON }
      else req1
    let req3 := if r.Header.length > 0 then
        (if req2.Header.length == 0 then { req2 with Header := r.Header }
         else { req2 with Header := mergeHeaders req2.Header r.Header })
      else req2
    match ctx with
    | some c => .ok { req3 with ctx := some c }
    | none => .ok req3

/-- The request-construction phase of `RoleDeleteRequest.Do` (lines 80-93):
method `DELETE`, path, a `nil` body, and context binding — no query
parameter, content-type, or header step exists in this `Do`. -/
def RoleDeleteRequest.buildReq (r : RoleDeleteRequest) (ctx : Option Nat) : Except Err Request :=
  match newRequest "DELETE" (roleDeletePath r.Role) none with
  | .error e => .error e
  | .ok req =>
    match ctx with
    | some c => .ok { req with ctx := some c }
    | none => .ok req

/-- The request-construction phase of `RoleMappingDeleteRequest.Do`
(lines 341-353): method `DELETE`, role-mapping path, a `nil` body, and
context binding — no query parameter, content-type, or header step. -/
def RoleMappingDeleteRequest.buildReq (r : RoleMappingDeleteRequest) (ctx : Option Nat) : Except Err Request :=
  match newRequest "DELETE" (roleMappingPath r.Role) none with
  | .error e => .error e
  | .ok req =>
    match ctx with
    | some c => .ok { req with ctx := some c }
    | none => .ok req

/-- Wrap the raw transport response: copy status code, body stream and
header set into the normalized `Response`. -/
def wrapResponse (res : RawResponse) : Response :=
  { StatusCode := res.StatusCode, Body := res.Body, Header := res.Header }

/-- `RoleCreateRequest.Do`: build the request, dispatch through the
transport, wrap the result; either error is returned as-is. -/
def RoleCreateRequest.Do (r : RoleCreateRequest) (ctx : Option Nat) (transport : Transport) : Except Err Response :=
  match r.buildReq ctx with
  | .error e => .error e
  | .ok req =>
    match transport req with
    | .error e => .error e
    | .ok res => .ok (wrapResponse res)

/-- `RoleDeleteRequest.Do`. -/
def RoleDeleteRequest.Do (r : RoleDeleteRequest) (ctx : Option Nat) (transport : Transport) : Except Err Response :=
  match r.buildReq ctx with
  | .error e => .error e
  | .ok req =>
    match transport req with
    | .error e => .error e
    | .ok res => .ok (wrapResponse res)

/-- `RoleMappingCreateRequest.Do`. -/
def RoleMappingCreateRequest.Do (r : RoleMappingCreateRequest) (ctx : Option Nat) (transport : Transport) : Except Err Response :=
  match r.buildReq ctx with
  | .error e => .error e
  | .ok req =>
    match transport req with
    | .error e => .error e
    | .ok res => .ok (wrapResponse res)

/-- `RoleMappingDeleteRequest.Do`. -/
def RoleMappingDeleteRequest.Do (r : RoleMappingDeleteRequest) (ctx : Option Nat) (transport : Transport) : Except Err Response :=
  match r.buildReq ctx with
  | .error e => .error e
  | .ok req =>
    match transport req with
    | .error e => .error e
    | .ok res => .ok (wrapResponse res)

/-- `RoleCreate.WithContext` sets the request context. -/
def RoleCreate.WithContext (v : Option Nat) : RoleCreateRequest → RoleCreateRequest :=
  fun r => { r with ctx := v }

/-- `RoleCreate.WithBody` sets the request body. -/
def RoleCreate.WithBody (v : Option String) : RoleCreateRequest → RoleCreateRequest :=
  fun r => { r with Body := v }

/-- `RoleCreate.WithMasterTimeout`. -/
def RoleCreate.WithMasterTimeout (v : Int) : RoleCreateRequest → RoleCreateRequest :=
  fun r => { r with MasterTimeout := v }

/-- `RoleCreate.WithClusterManagerTimeout`. -/
def RoleCreate.WithClusterManagerTimeout (v : Int) : RoleCreateRequest → RoleCreateRequest :=
  fun r => { r with ClusterManagerTimeout := v }

/-- `RoleCreate.WithTimeout`. -/
def RoleCreate.WithTimeout (v : Int) : RoleCreateRequest → RoleCreateRequest :=
  fun r => { r with Timeout := v }

/-- `RoleCreate.WithWaitForActiveShards`. -/
def RoleCreate.WithWaitForActiveShards (v : String) : RoleCreateRequest → RoleCreateRequest :=
  fun r => { r with WaitForActiveShards := v }

/-- `RoleCreate.WithPretty`. -/
def RoleCreate.WithPretty : RoleCreateRequest → RoleCreateRequest :=
  fun r => { r with Pretty := true }

/-- `RoleCreate.WithHuman`. -/
def RoleCreate.WithHuman : RoleCreateRequest → RoleCreateRequest :=
  fun r => { r with Human := true }

/-- `RoleCreate.WithErrorTrace`. -/
def RoleCreate.WithErrorTrace : RoleCreateRequest → RoleCreateRequest :=
  fun r => { r with ErrorTrace := true }

/-- `RoleCreate.WithFilterPath`. -/
def RoleCreate.WithFilterPath (v : List String) : RoleCreateRequest → RoleCreateRequest :=
  fun r => { r with FilterPath := v }

/-- `RoleCreate.WithHeader` adds the given headers (a Go `map[string]string`,
modelled as a key-value list iterated in list order) via `Header.Add`. -/
def RoleCreate.WithHeader (h : List (String × String)) : RoleCreateRequest → RoleCreateRequest :=
  fun r => { r with Header := h.foldl (fun acc kv => acc.add kv.1 kv.2) r.Header }

/-- `RoleCreate.WithOpaqueID` sets the `X-Opaque-Id` header via `Header.Set`. -/
def RoleCreate.WithOpaqueID (s : String) : RoleCreateRequest → RoleCreateRequest :=
  fun r => { r with Header := r.Header.set "X-Opaque-Id" s }

/-- `RoleDelete.WithContext`. -/
def RoleDelete.WithContext (v : Option Nat) : RoleDeleteRequest → RoleDeleteRequest :=
  fun r => { r with ctx := v }

/-- `RoleDelete.WithBody`. -/
def RoleDelete.WithBody (v : Option String) : RoleDeleteRequest → RoleDeleteRequest :=
  fun r => { r with Body := v }

/-- `RoleDelete.WithTimeout`. -/
def RoleDelete.WithTimeout (v : Int) : RoleDeleteRequest → RoleDeleteRequest :=
  fun r => { r with Timeout := v }

/-- `RoleDelete.WithHeader`. -/
def RoleDelete.WithHeader (h : List (String × String)) : RoleDeleteRequest → RoleDeleteRequest :=
  fun r => { r with Header := h.foldl (fun acc kv => acc.add kv.1 kv.2) r.Header }

/-- `RoleDelete.WithOpaqueID` sets the `X-Opaque-Id` header via `Header.Set`. -/
def RoleDelete.WithOpaqueID (s : String) : RoleDeleteRequest → RoleDeleteRequest :=
  fun r => { r with Header := r.Header.set "X-Opaque-Id" s }

/-- `RoleMappingCreate.WithBody`. -/
def RoleMappingCreate.WithBody (v : Option String) : RoleMappingCreateRequest → RoleMappingCreateRequest :=
  fun r => { r with Body := v }

/-- `RoleMappingCreate.WithMasterTimeout`. -/
def RoleMappingCreate.WithMasterTimeout (v : Int) : RoleMappingCreateRequest → RoleMappingCreateRequest :=
  fun r => { r with MasterTimeout := v }

/-- `RoleMappingCreate.WithClusterManagerTimeout`. -/
def RoleMappingCreate.WithClusterManagerTimeout (v : Int) : RoleMappingCreateRequest → RoleMappingCreateRequest :=
  fun r => { r with ClusterManagerTimeout := v }

/-- `RoleMappingDelete.WithContext`. -/
def RoleMappingDelete.WithContext (v : Option Nat) : RoleMappingDeleteRequest → RoleMappingDeleteRequest :=
  fun r => { r with ctx := v }

/-- `RoleMappingDelete.WithBody`. -/
def RoleMappingDelete.WithBody (v : Option String) : RoleMappingDeleteRequest → RoleMappingDeleteRequest :=
  fun r => { r with Body := v }

/-- `RoleMappingDelete.WithTimeout`. -/
def RoleMappingDelete.WithTimeout (v : Int) : RoleMappingDeleteRequest → RoleMappingDeleteRequest :=
  fun r => { r with Timeout := v }

/-- `RoleMappingDelete.WithHeader`. -/
def RoleMappingDelete.WithHeader (h : List (String × String)) : RoleMappingDeleteRequest → RoleMappingDeleteRequest :=
  fun r => { r with Header := h.foldl (fun acc kv => acc.add kv.1 kv.2) r.Header }

/-- `RoleMappingDelete.WithOpaqueID`. -/
def RoleMappingDelete.WithOpaqueID (s : String) : RoleMappingDeleteRequest → RoleMappingDeleteRequest :=
  fun r => { r with Header := r.Header.set "X-Opaque-Id" s }

/-- `newRoleCreateFunc`: seed the configuration with the identifier, apply
every option in call order, then dispatch. -/
def newRoleCreateFunc (t : Transport) (role : String)
    (o : List (RoleCreateRequest → RoleCreateRequest)) : Except Err Response :=
  let r := o.foldl (fun r f => f r) { Role := role }
  r.Do r.ctx t

/-- `newRoleDeleteFunc`. -/
def newRoleDeleteFunc (t : Transport) (role : String)
    (o : List (RoleDeleteRequest → RoleDeleteRequest)) : Except Err Response :=
  let r := o.foldl (fun r f => f r) { Role := role }
  r.Do r.ctx t

/-- `newRoleMappingCreateFunc`. -/
def newRoleMappingCreateFunc (t : Transport) (role : String)
    (o : List (RoleMappingCreateRequest → RoleMappingCreateRequest)) : Except Err Response :=
  let r := o.foldl (fun r f => f r) { Role := role }
  r.Do r.ctx t

/-- `newRoleMappingDeleteFunc`. -/
def newRoleMappingDeleteFunc (t : Transport) (role : String)
    (o : List (RoleMappingDeleteRequest → RoleMappingDeleteRequest)) : Except Err Response :=
  let r := o.foldl (fun r f => f r) { Role := role }
  r.Do r.ctx t

theorem newRequest_ok {m p : String} {b : Option String} {req : Request}
    (h : newRequest m p b = .ok req) :
    req = { Method := m, Path := p, Query := [], Header := [], Body := b, ctx := none } := by
  unfold newRequest at h
  split at h
  · cases h
  · split at h
    · cases h
    · cases h; rfl

theorem roleDelete_buildReq_eq (r : RoleDeleteRequest) (ctx : Option Nat) :
    r.buildReq ctx =
      if (roleDeletePath r.Role).data.any (fun c => c.toNat < 32 || c.toNat == 127)
      then Except.error "net/url: invalid control character in URL"
      else Except.ok { Method := "DELETE", Path := roleDeletePath r.Role, Query := [],
                       Header := [], Body := none, ctx := ctx } := by
  unfold RoleDeleteRequest.buildReq newRequest
  have hm : ("DELETE".isEmpty || !("DELETE".data.all validHeaderFieldChar)) = false := rfl
  rw [hm]
  cases hc : (roleDeletePath r.Role).data.any (fun c => c.toNat < 32 || c.toNat == 127) with
  | false => cases ctx <;> simp
  | true => cases ctx <;> simp

theorem roleMappingDelete_buildReq_eq (r : RoleMappingDeleteRequest) (ctx : Option Nat) :
    r.buildReq ctx =
      if (roleMappingPath r.Role).data.any (fun c => c.toNat < 32 || c.toNat == 127)
      then Except.error "net/url: invalid control character in URL"
      else Except.ok { Method := "DELETE", Path := roleMappingPath r.Role, Query := [],
                       Header := [], Body := none, ctx := ctx } := by
  unfold RoleMappingDeleteRequest.buildReq newRequest
  have hm : ("DELETE".isEmpty || !("DELETE".data.all validHeaderFieldChar)) = false := rfl
  rw [hm]
  cases hc : (roleMappingPath r.Role).data.any (fun c => c.toNat < 32 || c.toNat == 127) with
  | false => cases ctx <;> simp
  | true => cases ctx <;> simp

theorem roleCreate_buildReq_eq (r : RoleCreateRequest) (ctx : Option Nat) :
    r.buildReq ctx =
      if (roleCreatePath r.Role).data.any (fun c => c.toNat < 32 || c.toNat == 127)
      then Except.error "net/url: invalid control character in URL"
      else Except.ok
        { Method := "PUT", Path := roleCreatePath r.Role,
          Query := if r.params.length > 0 then sortParams r.params else [],
          Header :=
            (if r.Header.length > 0 then
              (if (if r.Body.isSome then [(headerContentType, headerContentTypeJSON)] else []).length == 0
               then r.Header
               else mergeHeaders (if r.Body.isSome then [(headerContentType, headerContentTypeJSON)] else []) r.Header)
             else (if r.Body.isSome then [(headerContentType, headerContentTypeJSON)] else [])),
          Body := r.Body, ctx := ctx } := by
  unfold RoleCreateRequest.buildReq newRequest
  have hm : ("PUT".isEmpty || !("PUT".data.all validHeaderFieldChar)) = false := rfl
  rw [hm]
  cases hc : (roleCreatePath r.Role).data.any (fun c => c.toNat < 32 || c.toNat == 127) with
  | true => cases ctx <;> simp
  | false =>
    by_cases hp : r.params.length > 0 <;>
      cases hb : r.Body <;>
        by_cases hh : r.Header.length > 0 <;>
          cases ctx <;>
            simp [hp, hh, assignEntry, headerContentType, headerContentTypeJSON]

theorem roleMappingCreate_buildReq_eq (r : RoleMappingCreateRequest) (ctx : Option Nat) :
    r.buildReq ctx =
      if (roleMappingPath r.Role).data.any (fun c => c.toNat < 32 || c.toNat == 127)
      then Except.error "net/url: invalid control character in URL"
      else Except.ok
        { Method := "PUT", Path := roleMappingPath r.Role,
          Query := if r.params.length > 0 then sortParams r.params else [],
          Header :=
            (if r.Header.length > 0 then
              (if (if r.Body.isSome then [(headerContentType, headerContentTypeJSON)] else []).length == 0
               then r.Header
               else mergeHeaders (if r.Body.isSome then [(headerContentType, headerContentTypeJSON)] else []) r.Header)
             else (if r.Body.isSome then [(headerContentType, headerContentTypeJSON)] else [])),
          Body := r.Body, ctx := ctx } := by
  unfold RoleMappingCreateRequest.buildReq newRequest
  have hm : ("PUT".isEmpty || !("PUT".data.all validHeaderFieldChar)) = false := rfl
  rw [hm]
  cases hc : (roleMappingPath r.Role).data.any (fun c => c.toNat < 32 || c.toNat == 127) with
  | true => cases ctx <;> simp
  | false =>
    by_cases hp : r.params.length > 0 <;>
      cases hb : r.Body <;>
        by_cases hh : r.Header.length > 0 <;>
          cases ctx <;>
            simp [hp, hh, assignEntry, headerContentType, headerContentTypeJSON]

theorem get_eq_bind (h : HttpHeader) (k : String) :
    h.get k = (findEntry h (canonicalMIMEHeaderKey k)).bind List.head? := by
  unfold HttpHeader.get
  cases findEntry h (canonicalMIMEHeaderKey k) <;> rfl

theorem findEntry_addEntry_head (h : HttpHeader) (k k' v' v : String)
    (hv : (findEntry h k).bind List.head? = some v) :
    (findEntry (addEntry h k' v') k).bind List.head? = some v := by
  induction h with
  | nil => simp [findEntry] at hv
  | cons e rest ih =>
    obtain ⟨k0, vs⟩ := e
    by_cases h0 : k0 == k'
    · simp only [addEntry, h0, if_pos]
      by_cases hk : k0 == k
      · simp only [findEntry, hk, if_pos, Option.bind] at hv ⊢
        cases vs with
        | nil => simp at hv
        | cons w ws => simp at hv ⊢; simpa using hv
      · simp only [findEntry, hk, if_neg] at hv ⊢
        simp only [Bool.not_eq_true] at hk
        simp [hk] at hv ⊢
        exact hv
    · simp only [addEntry, h0, if_neg]
      by_cases hk : k0 == k
      · simp only [findEntry, hk, if_pos] at hv ⊢
        simp [hk] at hv ⊢
        exact hv
      · simp only [Bool.not_eq_true] at h0 hk
        simp only [findEntry, hk] at hv ⊢
        simp [hk] at hv ⊢
        exact ih hv

theorem get_add (h : HttpHeader) (k k' v' v : String)
    (hv : h.get k = some v) : (h.add k' v').get k = some v := by
  rw [get_eq_bind] at hv ⊢
  exact findEntry_addEntry_head h (canonicalMIMEHeaderKey k) (canonicalMIMEHeaderKey k') v' v hv

theorem get_foldl_add (vs : List String) (k' : String) (h : HttpHeader) (k v : String)
    (hv : h.get k = some v) :
    (vs.foldl (fun a w => a.add k' w) h).get k = some v := by
  induction vs generalizing h with
  | nil => exact hv
  | cons w ws ih => exact ih (h.add k' w) (get_add h k k' w v hv)

theorem get_mergeHeaders (extra : HttpHeader) (base : HttpHeader) (k v : String)
    (hv : base.get k = some v) : (mergeHeaders base extra).get k = some v := by
  induction extra generalizing base with
  | nil => exact hv
  | cons e rest ih =>
    exact ih _ (get_foldl_add e.2 e.1 base k v hv)

theorem setEntry_setEntry (h : HttpHeader) (k a b : String) :
    setEntry (setEntry h k a) k b = setEntry h k b := by
  induction h with
  | nil => simp [setEntry]
  | cons e rest ih =>
    obtain ⟨k0, vs⟩ := e
    by_cases h0 : k0 == k
    · simp [setEntry, h0]
    · simp [setEntry, h0, ih]

theorem mem_insertParam (a p : String × String) (l : List (String × String)) :
    a ∈ insertParam p l ↔ a = p ∨ a ∈ l := by
  induction l with
  | nil => simp [insertParam]
  | cons q rest ih =>
    simp only [insertParam]
    split
    · simp only [List.mem_cons, ih]; tauto
    · simp only [List.mem_cons]

theorem mem_sortParams (a : String × String) (l : List (String × String)) :
    a ∈ sortParams l ↔ a ∈ l := by
  induction l with
  | nil => simp [sortParams]
  | cons p rest ih =>
    simp only [sortParams, List.foldr] at ih ⊢
    rw [mem_insertParam]
    simp [ih]

/-- C1: constructing a role-mapping delete call for role "readall" with a
5-second timeout option produces method DELETE, path
`/_plugins/_security/api/rolesmapping/readall` and an empty query string;
the delete `Do` serializes none of the recognized query-parameter fields,
even when set in the configuration. -/
theorem roleMappingDelete_readall_timeout_claim :
    ((RoleMappingDelete.WithTimeout 5000000000 { Role := "readall" }).buildReq
        (RoleMappingDelete.WithTimeout 5000000000 { Role := "readall" }).ctx =
      Except.ok { Method := "DELETE", Path := "/_plugins/_security/api/rolesmapping/readall",
                  Query := [], Header := [], Body := none, ctx := none }) ∧
    (∀ (r : RoleMappingDeleteRequest) (ctx : Option Nat) (req : Request),
        r.buildReq ctx = .ok req → req.Query = [] ∧ encodeQuery req.Query = "") := by
  constructor
  · rfl
  · intro r ctx req h
    rw [roleMappingDelete_buildReq_eq] at h
    split at h
    · cases h
    · cases h; exact ⟨rfl, rfl⟩

/-- Witness for C1: a configuration with every query-parameter field set
still yields an empty query. -/
theorem roleMappingDelete_readall_timeout_claim_witness :
    ({ Method := "DELETE", Path := "/_plugins/_security/api/rolesmapping/readall", Query := [], Header := [], Body := none, ctx := none } : Request).Query = [] ∧
    encodeQuery ({ Method := "DELETE", Path := "/_plugins/_security/api/rolesmapping/readall", Query := [], Header := [], Body := none, ctx := none } : Request).Query = "" :=
  roleMappingDelete_readall_timeout_claim.2
    { Role := "readall", Timeout := 5000000000, MasterTimeout := 1000000,
      ClusterManagerTimeout := 2000000, WaitForActiveShards := "all", Pretty := true,
      Human := true, ErrorTrace := true, FilterPath := ["took"] } none
    { Method := "DELETE", Path := "/_plugins/_security/api/rolesmapping/readall", Query := [],
      Header := [], Body := none, ctx := none } rfl

/-- C2: for every identifier string `id` (including the empty string), the
role-create path is the fixed prefix concatenated with `id`, appearing
exactly once immediately after the prefix, with no escaping, trimming or
validation applied. -/
theorem roleCreate_path_identifier_claim :
    ∀ id : String,
      roleCreatePath id = "/_plugins/_security/api/roles/" ++ id ∧
      (roleCreatePath id).length = ("/_plugins/_security/api/roles/").length + id.length ∧
      (∀ (r : RoleCreateRequest) (ctx : Option Nat) (req : Request),
          r.Role = id → r.buildReq ctx = .ok req →
          req.Path = "/_plugins/_security/api/roles/" ++ id) := by
  intro id
  refine ⟨rfl, ?_, ?_⟩
  · simp [roleCreatePath]
  · intro r ctx req hrole h
    rw [roleCreate_buildReq_eq] at h
    split at h
    · cases h
    · cases h; simp [roleCreatePath, hrole]

/-- Witness for C2 at the empty identifier. -/
theorem roleCreate_path_identifier_claim_witness :
    ({ Method := "PUT", Path := "/_plugins/_security/api/roles/", Query := [],
       Header := [], Body := none, ctx := none } : Request).Path =
      "/_plugins/_security/api/roles/" ++ "" :=
  (roleCreate_path_identifier_claim "").2.2 { Role := "" } none
    { Method := "PUT", Path := "/_plugins/_security/api/roles/", Query := [],
      Header := [], Body := none, ctx := none } rfl rfl

/-- C9: header merge is order-preserving for multi-value keys: applying
`WithHeader {"X":"1"}` then `WithHeader {"X":"2"}` to a configuration whose
header set is empty yields `X: ["1","2"]`, not replacement. -/
theorem withHeader_accumulates_claim :
    ∀ r : RoleCreateRequest, r.Header = [] →
      (RoleCreate.WithHeader [("X", "2")] (RoleCreate.WithHeader [("X", "1")] r)).Header
        = [("X", ["1", "2"])] := by
  intro r hr
  simp only [RoleCreate.WithHeader, List.foldl]
  rw [hr]
  rfl

/-- Witness for C9. -/
theorem withHeader_accumulates_claim_witness :
    (RoleCreate.WithHeader [("X", "2")]
        (RoleCreate.WithHeader [("X", "1")] { Role := "readall" })).Header
      = [("X", ["1", "2"])] :=
  withHeader_accumulates_claim { Role := "readall" } rfl

/-- C10: for the role delete and role-mapping delete operations, the request
handed to the transport depends only on the role identifier and the context:
configurations differing in body, header and every query-parameter field
build identical requests, the body is always `nil`, caller headers (opaque
id included) are never merged. -/
theorem deleteRequest_depends_only_on_role_claim :
    (∀ (r₁ r₂ : RoleDeleteRequest) (ctx : Option Nat), r₁.Role = r₂.Role →
        r₁.buildReq ctx = r₂.buildReq ctx) ∧
    (∀ (r : RoleDeleteRequest) (ctx : Option Nat) (req : Request),
        r.buildReq ctx = .ok req → req.Body = none ∧ req.Header = []) ∧
    (∀ (r : RoleDeleteRequest) (s : String) (ctx : Option Nat),
        (RoleDelete.WithOpaqueID s r).buildReq ctx = r.buildReq ctx) ∧
    (∀ (r₁ r₂ : RoleMappingDeleteRequest) (ctx : Option Nat), r₁.Role = r₂.Role →
        r₁.buildReq ctx = r₂.buildReq ctx) ∧
    (∀ (r : RoleMappingDeleteRequest) (ctx : Option Nat) (req : Request),
        r.buildReq ctx = .ok req → req.Body = none ∧ req.Header = []) ∧
    (∀ (r : RoleMappingDeleteRequest) (s : String) (ctx : Option Nat),
        (RoleMappingDelete.WithOpaqueID s r).buildReq ctx = r.buildReq ctx) := by
  refine ⟨?_, ?_, ?_, ?_, ?_, ?_⟩
  · intro r₁ r₂ ctx h
    simp only [RoleDeleteRequest.buildReq, roleDeletePath, h]
  · intro r ctx req h
    rw [roleDelete_buildReq_eq] at h
    split at h
    · cases h
    · cases h; exact ⟨rfl, rfl⟩
  · intro r s ctx; rfl
  · intro r₁ r₂ ctx h
    simp only [RoleMappingDeleteRequest.buildReq, roleMappingPath, h]
  · intro r ctx req h
    rw [roleMappingDelete_buildReq_eq] at h
    split at h
    · cases h
    · cases h; exact ⟨rfl, rfl⟩
  · intro r s ctx; rfl

/-- Witness for C10: two configurations sharing the role but differing in
body, headers (opaque id set) and every query option build the same
request. -/
theorem deleteRequest_depends_only_on_role_claim_witness :
    ({ Role := "readall", Body := some "ignored", Timeout := 5000000000,
       MasterTimeout := 1000000, Pretty := true, Human := true, ErrorTrace := true,
       FilterPath := ["took"], WaitForActiveShards := "all",
       Header := [("X-Opaque-Id", ["trace-1"])] } : RoleDeleteRequest).buildReq none =
    ({ Role := "readall" } : RoleDeleteRequest).buildReq none :=
  deleteRequest_depends_only_on_role_claim.1
    { Role := "readall", Body := some "ignored", Timeout := 5000000000,
      MasterTimeout := 1000000, Pretty := true, Human := true, ErrorTrace := true,
      FilterPath := ["took"], WaitForActiveShards := "all",
      Header := [("X-Opaque-Id", ["trace-1"])] }
    { Role := "readall" } none rfl

/-- C3 counterexample: `WithHeader` writes into the same `Header` field but
accumulates rather than overwrites, so applying `WithHeader {"X":"1"}` then
`WithHeader {"X":"2"}` differs from applying the latter alone. -/
theorem option_lastWriteWins_counterexample :
    RoleCreate.WithHeader [("X", "2")] (RoleCreate.WithHeader [("X", "1")] { Role := "readall" }) ≠
    RoleCreate.WithHeader [("X", "2")] ({ Role := "readall" } : RoleCreateRequest) := by
  decide

/-- C3 amended: last-write-wins holds for every pair of overwriting option
mutators on the same field — the context, body, the three timeouts,
wait-for-active-shards, the three flags, filter-path, and the opaque-id
setter — while `WithHeader` accumulates header values instead. -/
theorem option_lastWriteWins_amended_claim :
    (∀ (r : RoleCreateRequest) (a b : Option Nat),
        RoleCreate.WithContext b (RoleCreate.WithContext a r) = RoleCreate.WithContext b r) ∧
    (∀ (r : RoleCreateRequest) (a b : Option String),
        RoleCreate.WithBody b (RoleCreate.WithBody a r) = RoleCreate.WithBody b r) ∧
    (∀ (r : RoleCreateRequest) (a b : Int),
        RoleCreate.WithMasterTimeout b (RoleCreate.WithMasterTimeout a r) =
          RoleCreate.WithMasterTimeout b r) ∧
    (∀ (r : RoleCreateRequest) (a b : Int),
        RoleCreate.WithClusterManagerTimeout b (RoleCreate.WithClusterManagerTimeout a r) =
          RoleCreate.WithClusterManagerTimeout b r) ∧
    (∀ (r : RoleCreateRequest) (a b : Int),
        RoleCreate.WithTimeout b (RoleCreate.WithTimeout a r) = RoleCreate.WithTimeout b r) ∧
    (∀ (r : RoleCreateRequest) (a b : String),
        RoleCreate.WithWaitForActiveShards b (RoleCreate.WithWaitForActiveShards a r) =
          RoleCreate.WithWaitForActiveShards b r) ∧
    (∀ r : RoleCreateRequest,
        RoleCreate.WithPretty (RoleCreate.WithPretty r) = RoleCreate.WithPretty r) ∧
    (∀ r : RoleCreateRequest,
        RoleCreate.WithHuman (RoleCreate.WithHuman r) = RoleCreate.WithHuman r) ∧
    (∀ r : RoleCreateRequest,
        RoleCreate.WithErrorTrace (RoleCreate.WithErrorTrace r) = RoleCreate.WithErrorTrace r) ∧
    (∀ (r : RoleCreateRequest) (a b : List String),
        RoleCreate.WithFilterPath b (RoleCreate.WithFilterPath a r) =
          RoleCreate.WithFilterPath b r) ∧
    (∀ (r : RoleCreateRequest) (a b : String),
        RoleCreate.WithOpaqueID b (RoleCreate.WithOpaqueID a r) = RoleCreate.WithOpaqueID b r) := by
  refine ⟨fun r a b => rfl, fun r a b => rfl, fun r a b => rfl, fun r a b => rfl,
          fun r a b => rfl, fun r a b => rfl, fun r => rfl, fun r => rfl, fun r => rfl,
          fun r a b => rfl, ?_⟩
  intro r a b
  simp only [RoleCreate.WithOpaqueID, HttpHeader.set]
  rw [setEntry_setEntry]

/-- C4 counterexample: a role-delete configuration with a non-nil body
builds a request with no content-type header at all (the delete `Do`
discards the body and never touches headers), refuting the claim for
"every operation in both endpoint families". -/
theorem contentType_counterexample :
    (({ Role := "readall", Body := some "plain text, not json" } : RoleDeleteRequest).buildReq
        none).map (fun req => req.Header.get headerContentType) = .ok none := rfl

/-- C4 amended: for the create/update operations a non-nil body forces the
fixed JSON content-type regardless of the body's bytes; the delete
operations ignore the body field entirely — the built request carries a nil
body and no content-type header. -/
theorem contentType_amended_claim :
    (∀ (r : RoleCreateRequest) (ctx : Option Nat) (req : Request),
        r.Body.isSome → r.buildReq ctx = .ok req →
        req.Header.get headerContentType = some "application/json") ∧
    (∀ (r : RoleMappingCreateRequest) (ctx : Option Nat) (req : Request),
        r.Body.isSome → r.buildReq ctx = .ok req →
        req.Header.get headerContentType = some "application/json") ∧
    (∀ (r : RoleDeleteRequest) (ctx : Option Nat) (req : Request),
        r.buildReq ctx = .ok req →
        req.Body = none ∧ req.Header.get headerContentType = none) ∧
    (∀ (r : RoleMappingDeleteRequest) (ctx : Option Nat) (req : Request),
        r.buildReq ctx = .ok req →
        req.Body = none ∧ req.Header.get headerContentType = none) := by
  have hbase : HttpHeader.get [(headerContentType, headerContentTypeJSON)] headerContentType =
      some "application/json" := rfl
  refine ⟨?_, ?_, ?_, ?_⟩
  · intro r ctx req hb h
    rw [roleCreate_buildReq_eq] at h
    split at h
    · cases h
    · cases h
      simp only [hb, if_true,
        show (([(headerContentType, headerContentTypeJSON)] : HttpHeader).length == 0) = false from rfl,
        Bool.false_eq_true, if_false]
      by_cases hh : List.length r.Header > 0
      · simp only [hh, if_true]
        exact get_mergeHeaders r.Header _ _ _ hbase
      · simp only [hh, if_false]
        exact hbase
  · intro r ctx req hb h
    rw [roleMappingCreate_buildReq_eq] at h
    split at h
    · cases h
    · cases h
      simp only [hb, if_true,
        show (([(headerContentType, headerContentTypeJSON)] : HttpHeader).length == 0) = false from rfl,
        Bool.false_eq_true, if_false]
      by_cases hh : List.length r.Header > 0
      · simp only [hh, if_true]
        exact get_mergeHeaders r.Header _ _ _ hbase
      · simp only [hh, if_false]
        exact hbase
  · intro r ctx req h
    rw [roleDelete_buildReq_eq] at h
    split at h
    · cases h
    · cases h; exact ⟨rfl, rfl⟩
  · intro r ctx req h
    rw [roleMappingDelete_buildReq_eq] at h
    split at h
    · cases h
    · cases h; exact ⟨rfl, rfl⟩

/-- Witness for C4 amended: a deliberately non-JSON body still receives the
JSON content-type on the create operation. -/
theorem contentType_amended_claim_witness :
    ({ Method := "PUT", Path := "/_plugins/_security/api/roles/readall", Query := [], Header := [("Content-Type", ["application/json"])], Body := some "<xml/>", ctx := none } : Request).Header.get headerContentType = some "application/json" :=
  contentType_amended_claim.1 { Role := "readall", Body := some "<xml/>" } none
    { Method := "PUT", Path := "/_plugins/_security/api/roles/readall", Query := [], Header := [("Content-Type", ["application/json"])], Body := some "<xml/>", ctx := none }
    rfl rfl

/-- C5: when every optional query-parameter field holds its zero value, the
built request's query is empty and its URL carries no stray `?`. -/
theorem emptyQuery_zeroFields_claim :
    (∀ (r : RoleCreateRequest) (ctx : Option Nat) (req : Request),
        r.MasterTimeout = 0 → r.ClusterManagerTimeout = 0 → r.Timeout = 0 →
        r.WaitForActiveShards = "" → r.Pretty = false → r.Human = false →
        r.ErrorTrace = false → r.FilterPath = [] →
        r.buildReq ctx = .ok req → req.Query = [] ∧ req.urlString = req.Path) ∧
    (∀ (r : RoleMappingCreateRequest) (ctx : Option Nat) (req : Request),
        r.MasterTimeout = 0 → r.ClusterManagerTimeout = 0 → r.Timeout = 0 →
        r.WaitForActiveShards = "" → r.Pretty = false → r.Human = false →
        r.ErrorTrace = false → r.FilterPath = [] →
        r.buildReq ctx = .ok req → req.Query = [] ∧ req.urlString = req.Path) ∧
    (∀ (r : RoleDeleteRequest) (ctx : Option Nat) (req : Request),
        r.buildReq ctx = .ok req → req.Query = [] ∧ req.urlString = req.Path) ∧
    (∀ (r : RoleMappingDeleteRequest) (ctx : Option Nat) (req : Request),
        r.buildReq ctx = .ok req → req.Query = [] ∧ req.urlString = req.Path) := by
  refine ⟨?_, ?_, ?_, ?_⟩
  · intro r ctx req h1 h2 h3 h4 h5 h6 h7 h8 h
    have hparams : r.params = [] := by
      simp [RoleCreateRequest.params, h1, h2, h3, h4, h5, h6, h7, h8]
    rw [roleCreate_buildReq_eq] at h
    split at h
    · cases h
    · cases h
      refine ⟨by simp [hparams], ?_⟩
      simp [Request.urlString, hparams]
  · intro r ctx req h1 h2 h3 h4 h5 h6 h7 h8 h
    have hparams : r.params = [] := by
      simp [RoleMappingCreateRequest.params, h1, h2, h3, h4, h5, h6, h7, h8]
    rw [roleMappingCreate_buildReq_eq] at h
    split at h
    · cases h
    · cases h
      refine ⟨by simp [hparams], ?_⟩
      simp [Request.urlString, hparams]
  · intro r ctx req h
    rw [roleDelete_buildReq_eq] at h
    split at h
    · cases h
    · cases h
      exact ⟨rfl, by simp [Request.urlString]⟩
  · intro r ctx req h
    rw [roleMappingDelete_buildReq_eq] at h
    split at h
    · cases h
    · cases h
      exact ⟨rfl, by simp [Request.urlString]⟩

/-- Witness for C5. -/
theorem emptyQuery_zeroFields_claim_witness :
    ({ Method := "PUT", Path := "/_plugins/_security/api/roles/readall", Query := [], Header := [], Body := none, ctx := none } : Request).Query = [] ∧
    ({ Method := "PUT", Path := "/_plugins/_security/api/roles/readall", Query := [], Header := [], Body := none, ctx := none } : Request).urlString =
    ({ Method := "PUT", Path := "/_plugins/_security/api/roles/readall", Query := [], Header := [], Body := none, ctx := none } : Request).Path :=
  emptyQuery_zeroFields_claim.1 { Role := "readall" } none
    { Method := "PUT", Path := "/_plugins/_security/api/roles/readall", Query := [], Header := [], Body := none, ctx := none }
    rfl rfl rfl rfl rfl rfl rfl rfl rfl

/-- C6: a transport-level error is returned unchanged, with no Response
value, by every operation; the error is not retried, suppressed, wrapped,
or translated. -/
theorem transport_error_passthrough_claim :
    (∀ (r : RoleCreateRequest) (ctx : Option Nat) (t : Transport) (req : Request) (e : Err),
        r.buildReq ctx = .ok req → t req = .error e → r.Do ctx t = .error e) ∧
    (∀ (r : RoleDeleteRequest) (ctx : Option Nat) (t : Transport) (req : Request) (e : Err),
        r.buildReq ctx = .ok req → t req = .error e → r.Do ctx t = .error e) ∧
    (∀ (r : RoleMappingCreateRequest) (ctx : Option Nat) (t : Transport) (req : Request) (e : Err),
        r.buildReq ctx = .ok req → t req = .error e → r.Do ctx t = .error e) ∧
    (∀ (r : RoleMappingDeleteRequest) (ctx : Option Nat) (t : Transport) (req : Request) (e : Err),
        r.buildReq ctx = .ok req → t req = .error e → r.Do ctx t = .error e) := by
  refine ⟨?_, ?_, ?_, ?_⟩
  · intro r ctx t req e h1 h2
    simp only [RoleCreateRequest.Do, h1, h2]
  · intro r ctx t req e h1 h2
    simp only [RoleDeleteRequest.Do, h1, h2]
  · intro r ctx t req e h1 h2
    simp only [RoleMappingCreateRequest.Do, h1, h2]
  · intro r ctx t req e h1 h2
    simp only [RoleMappingDeleteRequest.Do, h1, h2]

/-- Witness for C6: a transport that always fails with a network error makes
the call return exactly that error. -/
theorem transport_error_passthrough_claim_witness :
    ({ Role := "readall" } : RoleCreateRequest).Do none
      (fun _ => Except.error "dial tcp: connection refused") =
    Except.error "dial tcp: connection refused" :=
  transport_error_passthrough_claim.1 { Role := "readall" } none
    (fun _ => Except.error "dial tcp: connection refused")
    { Method := "PUT", Path := "/_plugins/_security/api/roles/readall", Query := [], Header := [], Body := none, ctx := none }
    "dial tcp: connection refused" rfl rfl

/-- C7: when the request-construction helper fails, every operation returns
that error with no Response, for any transport whatsoever — the call aborts
before the transport can influence the result; and when construction and
transport both succeed the call succeeds, so construction failure and
transport failure are the only error paths in this layer. -/
theorem construction_error_aborts_claim :
    (∀ (r : RoleCreateRequest) (ctx : Option Nat) (e : Err),
        newRequest "PUT" (roleCreatePath r.Role) r.Body = .error e →
        ∀ t : Transport, r.Do ctx t = .error e) ∧
    (∀ (r : RoleDeleteRequest) (ctx : Option Nat) (e : Err),
        newRequest "DELETE" (roleDeletePath r.Role) none = .error e →
        ∀ t : Transport, r.Do ctx t = .error e) ∧
    (∀ (r : RoleMappingCreateRequest) (ctx : Option Nat) (e : Err),
        newRequest "PUT" (roleMappingPath r.Role) r.Body = .error e →
        ∀ t : Transport, r.Do ctx t = .error e) ∧
    (∀ (r : RoleMappingDeleteRequest) (ctx : Option Nat) (e : Err),
        newRequest "DELETE" (roleMappingPath r.Role) none = .error e →
        ∀ t : Transport, r.Do ctx t = .error e) ∧
    (∀ (r : RoleCreateRequest) (ctx : Option Nat) (t : Transport) (req : Request) (res : RawResponse),
        r.buildReq ctx = .ok req → t req = .ok res → r.Do ctx t = .ok (wrapResponse res)) ∧
    (∀ (r : RoleDeleteRequest) (ctx : Option Nat) (t : Transport) (req : Request) (res : RawResponse),
        r.buildReq ctx = .ok req → t req = .ok res → r.Do ctx t = .ok (wrapResponse res)) ∧
    (∀ (r : RoleMappingCreateRequest) (ctx : Option Nat) (t : Transport) (req : Request) (res : RawResponse),
        r.buildReq ctx = .ok req → t req = .ok res → r.Do ctx t = .ok (wrapResponse res)) ∧
    (∀ (r : RoleMappingDeleteRequest) (ctx : Option Nat) (t : Transport) (req : Request) (res : RawResponse),
        r.buildReq ctx = .ok req → t req = .ok res → r.Do ctx t = .ok (wrapResponse res)) := by
  refine ⟨?_, ?_, ?_, ?_, ?_, ?_, ?_, ?_⟩
  · intro r ctx e h t
    simp only [RoleCreateRequest.Do, RoleCreateRequest.buildReq, h]
  · intro r ctx e h t
    simp only [RoleDeleteRequest.Do, RoleDeleteRequest.buildReq, h]
  · intro r ctx e h t
    simp only [RoleMappingCreateRequest.Do, RoleMappingCreateRequest.buildReq, h]
  · intro r ctx e h t
    simp only [RoleMappingDeleteRequest.Do, RoleMappingDeleteRequest.buildReq, h]
  · intro r ctx t req res h1 h2
    simp only [RoleCreateRequest.Do, h1, h2]
  · intro r ctx t req res h1 h2
    simp only [RoleDeleteRequest.Do, h1, h2]
  · intro r ctx t req res h1 h2
    simp only [RoleMappingCreateRequest.Do, h1, h2]
  · intro r ctx t req res h1 h2
    simp only [RoleMappingDeleteRequest.Do, h1, h2]

/-- Witness for C7: an identifier carrying a control character makes the
construction helper fail; the call returns that error even against a
transport that always succeeds. -/
theorem construction_error_aborts_claim_witness :
    ({ Role := "bad\x00role" } : RoleCreateRequest).Do none
      (fun _ => Except.ok { StatusCode := 200, Header := [], Body := "{}" }) =
    Except.error "net/url: invalid control character in URL" :=
  construction_error_aborts_claim.1 { Role := "bad\x00role" } none
    "net/url: invalid control character in URL" rfl
    (fun _ => Except.ok { StatusCode := 200, Header := [], Body := "{}" })

/-- C8: on the create/update operations, `master_timeout` and
`cluster_manager_timeout` are independently settable; when both are
non-zero both are serialized into the query, each through the
duration-formatting helper, with no reconciliation. -/
theorem dual_timeout_params_claim :
    (∀ (r : RoleCreateRequest) (ctx : Option Nat) (req : Request),
        r.MasterTimeout ≠ 0 → r.ClusterManagerTimeout ≠ 0 → r.buildReq ctx = .ok req →
        ("master_timeout", formatDuration r.MasterTimeout) ∈ req.Query ∧
        ("cluster_manager_timeout", formatDuration r.ClusterManagerTimeout) ∈ req.Query) ∧
    (∀ (r : RoleMappingCreateRequest) (ctx : Option Nat) (req : Request),
        r.MasterTimeout ≠ 0 → r.ClusterManagerTimeout ≠ 0 → r.buildReq ctx = .ok req →
        ("master_timeout", formatDuration r.MasterTimeout) ∈ req.Query ∧
        ("cluster_manager_timeout", formatDuration r.ClusterManagerTimeout) ∈ req.Query) := by
  constructor
  · intro r ctx req hmt hcmt h
    have hmem1 : ("master_timeout", formatDuration r.MasterTimeout) ∈ r.params := by
      simp [RoleCreateRequest.params, hmt]
    have hmem2 : ("cluster_manager_timeout", formatDuration r.ClusterManagerTimeout) ∈ r.params := by
      simp [RoleCreateRequest.params, hmt, hcmt]
    have hp : r.params.length > 0 := List.length_pos.mpr (List.ne_nil_of_mem hmem1)
    rw [roleCreate_buildReq_eq] at h
    split at h
    · cases h
    · cases h
      simp only [hp, if_true]
      exact ⟨(mem_sortParams _ _).mpr hmem1, (mem_sortParams _ _).mpr hmem2⟩
  · intro r ctx req hmt hcmt h
    have hmem1 : ("master_timeout", formatDuration r.MasterTimeout) ∈ r.params := by
      simp [RoleMappingCreateRequest.params, hmt]
    have hmem2 : ("cluster_manager_timeout", formatDuration r.ClusterManagerTimeout) ∈ r.params := by
      simp [RoleMappingCreateRequest.params, hmt, hcmt]
    have hp : r.params.length > 0 := List.length_pos.mpr (List.ne_nil_of_mem hmem1)
    rw [roleMappingCreate_buildReq_eq] at h
    split at h
    · cases h
    · cases h
      simp only [hp, if_true]
      exact ⟨(mem_sortParams _ _).mpr hmem1, (mem_sortParams _ _).mpr hmem2⟩

/-- Witness for C8: with both timeouts set, both formatted parameters appear
in the serialized query. -/
theorem dual_timeout_params_claim_witness :
    ("master_timeout", formatDuration 3000000000) ∈
      ({ Method := "PUT", Path := "/_plugins/_security/api/roles/readall", Query := [("cluster_manager_timeout", "7000ms"), ("master_timeout", "3000ms")], Header := [], Body := none, ctx := none } : Request).Query ∧
    ("cluster_manager_timeout", formatDuration 7000000000) ∈
      ({ Method := "PUT", Path := "/_plugins/_security/api/roles/readall", Query := [("cluster_manager_timeout", "7000ms"), ("master_timeout", "3000ms")], Header := [], Body := none, ctx := none } : Request).Query :=
  dual_timeout_params_claim.1
    { Role := "readall", MasterTimeout := 3000000000, ClusterManagerTimeout := 7000000000 } none
    { Method := "PUT", Path := "/_plugins/_security/api/roles/readall", Query := [("cluster_manager_timeout", "7000ms"), ("master_timeout", "3000ms")], Header := [], Body := none, ctx := none }
    (by decide) (by decide) rfl
